import Mathlib

set_option maxRecDepth 100000

namespace NodeID3

/-!
# Verification of the node-id3tag frame codec (src/index.ts)

A shallow embedding of the ID3v2 tag codec from `src/index.ts` (the
`NodeID3` class) together with proofs about the embedded functions.

Modelling conventions:

* A Node `Buffer` is a `List Nat`, each element a byte value `0..255`.
  Out-of-range JavaScript reads (`buf[i]` with `i ≥ buf.length`) yield
  `undefined`; everywhere the source feeds such a read into `Buffer.from`
  or a bitwise operator, JavaScript coerces `undefined` to `0`, so those
  reads are modelled with `List.getD _ _ 0`.
* JavaScript strings that only ever carry single-byte text (Latin-1 /
  ASCII payloads, frame identifiers, the internal sentinel) are modelled
  as their byte lists; `iconv` decoding for the single-byte encodings
  (`ISO-8859-1`, `utf8` on ASCII data) is the identity on bytes, and all
  string operations used by the source (`indexOf`, `split`, regex
  replacement of `\0`) are modelled byte-wise.  The `utf16` (UTF-16LE
  with byte-order mark) encode path used by the comment codec is
  modelled explicitly on code points.
* Fallible / nullable results are `Option`; the one place the source can
  throw (`writeUInt32BE` on an out-of-range counter) is modelled with a
  dedicated result constructor.
-/

/-- `enum TagVersion` from `frame-classes`. -/
inductive TagVersion
  | v22
  | v23
  | v24
  | unknown
deriving DecidableEq, Repr

/-- `const multiValueSplitter = '#BREAK_HERE#'` as its ASCII bytes. -/
def multiValueSplitter : List Nat :=
  [35, 66, 82, 69, 65, 75, 95, 72, 69, 82, 69, 35]

/-!
## Size codec (`encodeSize` / `decodeSize`)

Source (src/index.ts:1570-1584):

```
public encodeSize(totalSize: number) {
    const byte3 = totalSize & 0x7F;
    const byte2 = (totalSize >> 7) & 0x7F;
    const byte1 = (totalSize >> 14) & 0x7F;
    const byte0 = (totalSize >> 21) & 0x7F;
    return ([byte0, byte1, byte2, byte3]);
}
public decodeSize(hSize: Buffer): number {
    return ((hSize[0] << 21) + (hSize[1] << 14) + (hSize[2] << 7) + (hSize[3]));
}
```

For `totalSize` in `[0, 2^31)` the JavaScript 32-bit coercions are the
identity, so `>>` is `Nat.shiftRight` and `& 0x7F` is `&&& 127`.
-/

def encodeSize (totalSize : Nat) : List Nat :=
  [(totalSize >>> 21) &&& 0x7F,
   (totalSize >>> 14) &&& 0x7F,
   (totalSize >>> 7) &&& 0x7F,
   totalSize &&& 0x7F]

def decodeSize (hSize : List Nat) : Nat :=
  (hSize.getD 0 0) <<< 21 + (hSize.getD 1 0) <<< 14 +
    (hSize.getD 2 0) <<< 7 + hSize.getD 3 0

/-!
## Frame splitter (`getFramesFromID3Body`, src/index.ts:1330-1378)

```
public getFramesFromID3Body(ID3FrameBody: any, id3Version: string) {
    const frames = [];
    let currentPosition = 0;
    const textframeHeaderSize = this.getTextFrameHeaderSize(id3Version);
    const identifierSize = this.getIdentifierSize(id3Version);
    while (currentPosition < ID3FrameBody.length && ID3FrameBody[currentPosition] !== 0x00) {
        const bodyFrameHeader = Buffer.alloc(textframeHeaderSize);
        ID3FrameBody.copy(bodyFrameHeader, 0, currentPosition);
        const unsynchronized = !!(bodyFrameHeader[9] & 1 << 1);
        const bodyFrameSize = this.getFrameSize(bodyFrameHeader, 4, unsynchronized);
        if (bodyFrameSize > (ID3FrameBody.length - currentPosition)) { break; }
        const bodyFrameBuffer = Buffer.alloc(bodyFrameSize);
        ID3FrameBody.copy(bodyFrameBuffer, 0, currentPosition + textframeHeaderSize);
        currentPosition += bodyFrameSize + textframeHeaderSize;
        frames.push({ name: bodyFrameHeader.toString('utf8', 0, identifierSize),
            body: bodyFrameBuffer, unsynchronized, dataLengthIndicator: unsynchronized });
    }
    return frames;
}
```

`Buffer.copy` into a zero-filled allocation reads `0` past the end of the
source, hence the `getD _ _ 0` reads.  For a 6-byte v2.2 header,
`bodyFrameHeader[9]` is `undefined` and `undefined & 2` is `0` in
JavaScript, which the `getD 9 0` read reproduces.  Frame names are kept
as byte lists (`toString('utf8')` is the identity on the ASCII
identifiers the rest of the code compares against).
-/

/-- `interface Frame` from the source. -/
structure Frame where
  name : List Nat
  body : List Nat
  unsynchronized : Bool
  dataLengthIndicator : Bool
deriving DecidableEq, Repr

def getTextFrameHeaderSize : TagVersion → Nat
  | .v22 => 6
  | _ => 10

def getIdentifierSize : TagVersion → Nat
  | .v22 => 3
  | _ => 4

/-- `Buffer.readUIntBE(0, 4)` on a 4-byte buffer. -/
def readUIntBE4 (bytes : List Nat) : Nat :=
  (bytes.getD 0 0) * 2 ^ 24 + (bytes.getD 1 0) * 2 ^ 16 +
    (bytes.getD 2 0) * 2 ^ 8 + bytes.getD 3 0

/-- `getFrameSize` (src/index.ts:1472-1478). -/
def getFrameSize (buffer : List Nat) (offset : Nat) (decode : Bool) : Nat :=
  if decode then
    decodeSize [buffer.getD offset 0, buffer.getD (offset + 1) 0,
      buffer.getD (offset + 2) 0, buffer.getD (offset + 3) 0]
  else
    readUIntBE4 [buffer.getD offset 0, buffer.getD (offset + 1) 0,
      buffer.getD (offset + 2) 0, buffer.getD (offset + 3) 0]

/-- `!!(bodyFrameHeader[9] & 1 << 1)` — bit 1 of the second flags byte. -/
def unsyncFlag (header : List Nat) : Bool :=
  header.getD 9 0 &&& 2 != 0

/-- `bodyFrameHeader`: the `textframeHeaderSize` bytes copied from the body
at `pos` into a zero-filled allocation. -/
def frameHeaderAt (body : List Nat) (version : TagVersion) (pos : Nat) : List Nat :=
  (List.range (getTextFrameHeaderSize version)).map (fun i => body.getD (pos + i) 0)

/-- `bodyFrameSize`: the declared frame size at `pos`. -/
def frameSizeAt (body : List Nat) (version : TagVersion) (pos : Nat) : Nat :=
  getFrameSize (frameHeaderAt body version pos) 4
    (unsyncFlag (frameHeaderAt body version pos))

/-- The frame record pushed by one loop iteration starting at `pos`. -/
def frameAt (body : List Nat) (version : TagVersion) (pos : Nat) : Frame :=
  { name := (frameHeaderAt body version pos).take (getIdentifierSize version)
    body := (List.range (frameSizeAt body version pos)).map
      (fun i => body.getD (pos + getTextFrameHeaderSize version + i) 0)
    unsynchronized := unsyncFlag (frameHeaderAt body version pos)
    dataLengthIndicator := unsyncFlag (frameHeaderAt body version pos) }

/-- The splitter loop.  `fuel` is an upper bound on the iteration count;
`getFramesFromID3BodyAux_fuel` below shows any fuel above
`body.length - pos` gives the loop's exact result. -/
def getFramesFromID3BodyAux (body : List Nat) (version : TagVersion) :
    Nat → Nat → List Frame
  | _, 0 => []
  | pos, fuel + 1 =>
    if pos < body.length ∧ body.getD pos 0 ≠ 0 then
      if frameSizeAt body version pos > body.length - pos then []
      else
        frameAt body version pos ::
          getFramesFromID3BodyAux body version
            (pos + frameSizeAt body version pos + getTextFrameHeaderSize version) fuel
    else []

def getFramesFromID3Body (body : List Nat) (version : TagVersion) : List Frame :=
  getFramesFromID3BodyAux body version 0 (body.length + 1)

/-!
## Text frame codec (`createTextFrame`, `splitMultiValues`, text decode)

JavaScript strings holding Latin-1/ASCII text are modelled as byte lists;
`String.prototype.indexOf`, `split` and global regex replacement of plain
patterns are modelled byte-wise.  `iconv.decode` for the single-byte
encodings (encoding bytes `0x00` Latin-1 and `0x03` UTF-8 on ASCII
payloads — the only ones exercised below) is the identity on bytes.
-/

/-- The code points of an ASCII string literal as a byte list. -/
def asciiBytes (s : String) : List Nat :=
  s.data.map Char.toNat

/-- `String.prototype.indexOf(pat)`: index of the first occurrence of
`pat`, `none` for JavaScript's `-1`. -/
def indexOfSublist (pat : List Nat) : List Nat → Option Nat
  | [] => if pat.isPrefixOf ([] : List Nat) then some 0 else none
  | b :: t =>
    if pat.isPrefixOf (b :: t) then some 0
    else (indexOfSublist pat t).map (· + 1)

/-- `String.prototype.split(pat)`, fuelled (any fuel above the input
length is exact, since each found occurrence consumes at least one
byte for the non-empty patterns used here). -/
def splitOnSub (pat : List Nat) : Nat → List Nat → List (List Nat)
  | 0, s => [s]
  | fuel + 1, s =>
    match indexOfSublist pat s with
    | none => [s]
    | some i => s.take i :: splitOnSub pat fuel (s.drop (i + pat.length))

def splitOn (pat s : List Nat) : List (List Nat) :=
  splitOnSub pat (s.length + 1) s

/-- `String.prototype.replace(new RegExp(pat, 'g'), repl)` for a plain
(metacharacter-free) pattern: split on the pattern and re-join with the
replacement. -/
def replaceAll (pat repl s : List Nat) : List Nat :=
  List.intercalate repl (splitOn pat s)

/-- The result of `splitMultiValues`: a JavaScript string or an array of
strings. -/
inductive TextValue
  | single (s : List Nat)
  | multi (vs : List (List Nat))
deriving DecidableEq, Repr

/-- `splitMultiValues` (src/index.ts:1935-1946):

```
public splitMultiValues(valueString: string) {
    let vals: string|string[] = valueString;
    if (valueString.indexOf(multiValueSplitter)) {
        vals = valueString.split(multiValueSplitter)
            .filter(v => v.length);
        if (vals.length === 1) {
            // don't store single values as an array
            vals = vals[0];
        }
    }
    return vals;
}
```

The `if` guard is on the *truthiness* of the index: `-1` (absent) and any
positive index pass, index `0` — the value string starting with the
sentinel — fails, returning the string unsplit. -/
def splitMultiValues (valueString : List Nat) : TextValue :=
  if indexOfSublist multiValueSplitter valueString ≠ some 0 then
    let vals := (splitOn multiValueSplitter valueString).filter
      (fun v => v.length ≠ 0)
    if vals.length = 1 then .single (vals.getD 0 []) else .multi vals
  else .single valueString

/-- The text-frame decode steps of `getTagsFromFrames`
(src/index.ts:1390-1394): strip the leading encoding byte, decode, replace
every `\0` with the sentinel, then `splitMultiValues`.  The `iconv`
decode is the identity for the single-byte encodings modelled here. -/
def decodeTextFrameBody (body : List Nat) : TextValue :=
  splitMultiValues (((body.drop 1).map
    (fun b => if b = 0 then multiValueSplitter else [b])).flatten)

/-- `string | string[]` input of `createTextFrame`. -/
inductive JSTextInput
  | str (s : List Nat)
  | arr (vs : List (List Nat))
deriving DecidableEq, Repr

/-- `Buffer.prototype.write` / `writeUInt32BE`: overwrite `base` with
`src` starting at `offset` (the writes below always fit). -/
def writeBytes (base src : List Nat) (offset : Nat) : List Nat :=
  (List.range base.length).map fun i =>
    if offset ≤ i ∧ i < offset + src.length then src.getD (i - offset) 0
    else base.getD i 0

/-- The 4 bytes `writeUInt32BE` stores (callers below stay below `2^32`,
where `writeUInt32BE` would throw instead). -/
def uint32BE (n : Nat) : List Nat :=
  [n / 2 ^ 24 % 256, n / 2 ^ 16 % 256, n / 2 ^ 8 % 256, n % 256]

/-- `createTextFrame` (src/index.ts:1607-1633): `null` when the identifier
or the value is falsy (the empty array is truthy in JavaScript); each
array element (or the single string) is UTF-8 encoded and followed by a
one-byte null separator; the frame is a 10-byte header (identifier, then
big-endian size = text length + 1 for the encoding byte) followed by
encoding byte `0x03` (UTF-8) and the separated text. -/
def createTextFrame (frameId : List Nat) (textValue : JSTextInput) :
    Option (List Nat) :=
  if frameId = [] ∨ textValue = .str [] then none
  else
    let encoded := match textValue with
      | .arr vs => (vs.map (fun t => t ++ [0])).flatten
      | .str s => s ++ [0]
    let header := writeBytes (writeBytes (List.replicate 10 0) frameId 0)
      (uint32BE (encoded.length + 1)) 4
    some (header ++ [3] ++ encoded)

/-!
## Frame definitions (`src/frame-definitions.js`) and the tag reader's
per-frame dispatch (`getTagsFromFrames`, src/index.ts:1380-1437)
-/

/-- One entry of `ID3v24Frames`/`ID3v23Frames`: the frame identifier and
an optional historical multi-value separator (v2.3 only). -/
structure FrameDef where
  key : List Nat
  multiValueSeparator : Option (List Nat) := none
deriving DecidableEq, Repr

def ID3v24Frames : List (String × FrameDef) :=
  [("album", ⟨asciiBytes "TALB", none⟩),
   ("albumSortOrder", ⟨asciiBytes "TSOA", none⟩),
   ("artist", ⟨asciiBytes "TPE1", none⟩),
   ("artistSortOrder", ⟨asciiBytes "TSOP", none⟩),
   ("bpm", ⟨asciiBytes "TBPM", none⟩),
   ("composer", ⟨asciiBytes "TCOM", none⟩),
   ("conductor", ⟨asciiBytes "TPE3", none⟩),
   ("contentGroup", ⟨asciiBytes "TIT1", none⟩),
   ("copyright", ⟨asciiBytes "TCOP", none⟩),
   ("date", ⟨asciiBytes "TDRC", none⟩),
   ("encodedBy", ⟨asciiBytes "TENC", none⟩),
   ("encodingTechnology", ⟨asciiBytes "TSSE", none⟩),
   ("fileOwner", ⟨asciiBytes "TOWN", none⟩),
   ("fileType", ⟨asciiBytes "TFLT", none⟩),
   ("genre", ⟨asciiBytes "TCON", none⟩),
   ("initialKey", ⟨asciiBytes "TKEY", none⟩),
   ("internetRadioName", ⟨asciiBytes "TRSN", none⟩),
   ("internetRadioOwner", ⟨asciiBytes "TRSO", none⟩),
   ("isrc", ⟨asciiBytes "TSRC", none⟩),
   ("language", ⟨asciiBytes "TLAN", none⟩),
   ("length", ⟨asciiBytes "TLEN", none⟩),
   ("mediaType", ⟨asciiBytes "TMED", none⟩),
   ("mood", ⟨asciiBytes "TMOO", none⟩),
   ("originalArtist", ⟨asciiBytes "TOPE", none⟩),
   ("originalFilename", ⟨asciiBytes "TOFN", none⟩),
   ("originalReleaseDate", ⟨asciiBytes "TDOR", none⟩),
   ("originalTextwriter", ⟨asciiBytes "TOLY", none⟩),
   ("originalTitle", ⟨asciiBytes "TOAL", none⟩),
   ("partOfSet", ⟨asciiBytes "TPOS", none⟩),
   ("performerInfo", ⟨asciiBytes "TPE2", none⟩),
   ("playlistDelay", ⟨asciiBytes "TDLY", none⟩),
   ("producedNotice", ⟨asciiBytes "TPRO", none⟩),
   ("publisher", ⟨asciiBytes "TPUB", none⟩),
   ("remixArtist", ⟨asciiBytes "TPE4", none⟩),
   ("subtitle", ⟨asciiBytes "TIT3", none⟩),
   ("textWriter", ⟨asciiBytes "TEXT", none⟩),
   ("time", ⟨asciiBytes "TIME", none⟩),
   ("title", ⟨asciiBytes "TIT2", none⟩),
   ("titleSortOrder", ⟨asciiBytes "TSOT", none⟩),
   ("trackNumber", ⟨asciiBytes "TRCK", none⟩)]

def ID3v23Frames : List (String × FrameDef) :=
  [("album", ⟨asciiBytes "TALB", none⟩),
   ("albumSortOrder", ⟨asciiBytes "TSOA", none⟩),
   ("artist", ⟨asciiBytes "TPE1", some (asciiBytes " / ")⟩),
   ("artistSortOrder", ⟨asciiBytes "TSOP", none⟩),
   ("bpm", ⟨asciiBytes "TBPM", none⟩),
   ("composer", ⟨asciiBytes "TCOM", some (asciiBytes " / ")⟩),
   ("conductor", ⟨asciiBytes "TPE3", some (asciiBytes " / ")⟩),
   ("contentGroup", ⟨asciiBytes "TIT1", none⟩),
   ("copyright", ⟨asciiBytes "TCOP", none⟩),
   ("date", ⟨asciiBytes "TDAT", none⟩),
   ("encodedBy", ⟨asciiBytes "TENC", none⟩),
   ("encodingTechnology", ⟨asciiBytes "TSSE", none⟩),
   ("fileOwner", ⟨asciiBytes "TOWN", none⟩),
   ("fileType", ⟨asciiBytes "TFLT", none⟩),
   ("genre", ⟨asciiBytes "TCON", some (asciiBytes ";")⟩),
   ("initialKey", ⟨asciiBytes "TKEY", none⟩),
   ("internetRadioName", ⟨asciiBytes "TRSN", none⟩),
   ("internetRadioOwner", ⟨asciiBytes "TRSO", none⟩),
   ("isrc", ⟨asciiBytes "TSRC", none⟩),
   ("language", ⟨asciiBytes "TLAN", none⟩),
   ("length", ⟨asciiBytes "TLEN", none⟩),
   ("mediaType", ⟨asciiBytes "TMED", none⟩),
   ("originalArtist", ⟨asciiBytes "TOPE", none⟩),
   ("originalFilename", ⟨asciiBytes "TOFN", none⟩),
   ("originalReleaseDate", ⟨asciiBytes "TORY", none⟩),
   ("originalTextwriter", ⟨asciiBytes "TOLY", none⟩),
   ("originalTitle", ⟨asciiBytes "TOAL", none⟩),
   ("partOfSet", ⟨asciiBytes "TPOS", none⟩),
   ("performerInfo", ⟨asciiBytes "TPE2", some (asciiBytes " / ")⟩),
   ("playlistDelay", ⟨asciiBytes "TDLY", none⟩),
   ("publisher", ⟨asciiBytes "TPUB", none⟩),
   ("remixArtist", ⟨asciiBytes "TPE4", some (asciiBytes " / ")⟩),
   ("size", ⟨asciiBytes "TSIZ", none⟩),
   ("subtitle", ⟨asciiBytes "TIT3", none⟩),
   ("textWriter", ⟨asciiBytes "TEXT", none⟩),
   ("title", ⟨asciiBytes "TIT2", none⟩),
   ("trackNumber", ⟨asciiBytes "TRCK", none⟩)]

/-- `LegacyFramesRemapped` (src/frame-definitions.js:96-100): v2.3 frames
remapped in v2.4, all exposed under the `date` alias. -/
def LegacyFramesRemapped : List (List Nat × String) :=
  [(asciiBytes "TYER", "date"),
   (asciiBytes "TIME", "date"),
   (asciiBytes "TRDA", "date")]

/-- The alias/identifier pairs of the `SpecialFrames` dispatch table
(src/index.ts:1028-1060).  The per-frame `read` decoders are modelled
opaquely in `getTagsFromFrames` below — no claim depends on a special
frame's decoded payload there (the special codecs themselves are
embedded separately further down). -/
def specialFrameNames : List (String × List Nat) :=
  [("comment", asciiBytes "COMM"),
   ("image", asciiBytes "APIC"),
   ("unsynchronisedLyrics", asciiBytes "USLT"),
   ("userDefined", asciiBytes "TXXX"),
   ("popularimeter", asciiBytes "POPM"),
   ("chapter", asciiBytes "CHAP")]

def getVersionedFrameDefinitions (version : TagVersion) :
    List (String × FrameDef) :=
  if version = .v23 then ID3v23Frames else ID3v24Frames

/-- A decoded tag value: a text frame's decoded text, or the (opaquely
modelled) result of a special frame's `read`. -/
inductive TagValue
  | text (v : TextValue)
  | special (frameName : List Nat) (body : List Nat)
deriving DecidableEq, Repr

/-- The result object of `getTagsFromFrames`: the `raw`
identifier-keyed view and the alias-keyed view.  JavaScript property
assignment overwrites, so both views are association lists with the most
recent write first and lookup returning the first match. -/
structure TagMap where
  raw : List (List Nat × TagValue)
  aliased : List (String × TagValue)
deriving DecidableEq, Repr

def TagMap.setRaw (m : TagMap) (k : List Nat) (v : TagValue) : TagMap :=
  { m with raw := (k, v) :: m.raw }

def TagMap.setAlias (m : TagMap) (k : String) (v : TagValue) : TagMap :=
  { m with aliased := (k, v) :: m.aliased }

def TagMap.lookupAlias (m : TagMap) (k : String) : Option TagValue :=
  (m.aliased.find? (fun p => p.1 == k)).map (·.2)

def TagMap.lookupRaw (m : TagMap) (k : List Nat) : Option TagValue :=
  (m.raw.find? (fun p => p.1 == k)).map (·.2)

/-- The v2.3 secondary split (src/index.ts:1399-1403): when the matched
definition carries a `multiValueSeparator` and the decoded value is still
a bare string, replace the separator with the sentinel and split again. -/
def resplitV23 (sep : Option (List Nat)) (decoded : TextValue) : TextValue :=
  match sep, decoded with
  | some s, .single str => splitMultiValues (replaceAll s multiValueSplitter str)
  | _, _ => decoded

/-- One iteration of the `Object.keys(TFrames).map` loop
(src/index.ts:1397-1407) over the running `(tags, decoded, found)`
state: on an identifier match, store the (possibly v2.3-re-split)
decoded value under the alias and mark `found`. -/
def textAliasStep (version : TagVersion) (frame : Frame)
    (st : TagMap × TextValue × Bool) (kv : String × FrameDef) :
    TagMap × TextValue × Bool :=
  if kv.2.key = frame.name then
    let decoded := if version = .v23 then resplitV23 kv.2.multiValueSeparator st.2.1
      else st.2.1
    (st.1.setAlias kv.1 (.text decoded), decoded, true)
  else st

/-- Processing of one text frame (`frame.name[0] === 'T' &&
frame.name !== 'TXXX'`, src/index.ts:1388-1410): decode the body, store
it under `raw`, store it under every alias whose definition matches the
identifier (re-splitting for v2.3 separator frames), and — when no
definition matched — under the legacy remap alias, if any. -/
def processTextFrame (tFrames : List (String × FrameDef))
    (version : TagVersion) (frame : Frame) (tags : TagMap) : TagMap :=
  let decoded0 := decodeTextFrameBody frame.body
  let res := tFrames.foldl (textAliasStep version frame)
    (tags.setRaw frame.name (.text decoded0), decoded0, false)
  if res.2.2 = false then
    match LegacyFramesRemapped.find? (fun p => p.1 == frame.name) with
    | some p => res.1.setAlias p.2 (.text res.2.1)
    | none => res.1
  else res.1

/-- Processing of one non-text frame (src/index.ts:1411-1433): look the
identifier up in the special dispatch table and, on a match, store the
decoded result under `raw` and the special alias.  The decoded payload —
and the `TXXX` description-merging variant of this store — is modelled
opaquely as `TagValue.special`; no theorem below inspects it. -/
def processSpecialFrame (frame : Frame) (tags : TagMap) : TagMap :=
  specialFrameNames.foldl
    (fun tags kv =>
      if kv.2 = frame.name then
        (tags.setRaw frame.name (.special frame.name frame.body)).setAlias kv.1
          (.special frame.name frame.body)
      else tags)
    tags

/-- Per-frame dispatch of `getTagsFromFrames`: text frames are those whose
identifier starts with `'T'` (byte 84) and is not `TXXX`. -/
def processFrame (version : TagVersion) (frame : Frame) (tags : TagMap) :
    TagMap :=
  if frame.name.getD 0 0 = 84 ∧ frame.name ≠ asciiBytes "TXXX" then
    processTextFrame (getVersionedFrameDefinitions version) version frame tags
  else processSpecialFrame frame tags

/-- `getTagsFromFrames` (src/index.ts:1380-1437). -/
def getTagsFromFrames (frames : List Frame) (version : TagVersion) : TagMap :=
  frames.foldl (fun tags frame => processFrame version frame tags)
    { raw := [], aliased := [] }

/-- The identifiers that end up writing the `date` alias: the version's
directly `date`-mapped frame plus the legacy identifiers absent from the
version's table (`TIME` is present in the v2.4 table under the `time`
alias, so it is only a `date` writer for v2.3). -/
def dateAliasWriters (v : TagVersion) : List (List Nat) :=
  if v = .v23 then
    [asciiBytes "TDAT", asciiBytes "TYER", asciiBytes "TIME", asciiBytes "TRDA"]
  else [asciiBytes "TDRC", asciiBytes "TYER", asciiBytes "TRDA"]

/-!
## Tag reader entry point (`getTagsFromBuffer`, src/index.ts:1311-1328)

```
public getTagsFromBuffer(filebuffer: Buffer) {
    const framePosition = this.getFramePosition(filebuffer);
    if (framePosition === -1) { return false; }
    const tempBuffer = Buffer.from(filebuffer.toString('hex', framePosition,
        framePosition + 10), 'hex');
    const id3Version = this.getTagVersion(tempBuffer);
    if (id3Version === TagVersion.unknown) { return false; }
    const frameSize = this.getTagsSize(tempBuffer) + 10;
    const ID3FrameBody = Buffer.alloc(frameSize - 10 + 1);
    filebuffer.copy(ID3FrameBody, 0, framePosition + 10);
    const frames = this.getFramesFromID3Body(ID3FrameBody, id3Version);
    return this.getTagsFromFrames(frames, id3Version);
}
```

The hex round trip makes `tempBuffer` the (up to) 10 bytes of the file
buffer starting at the signature, unpadded; the `false` results are
`none`.
-/

/-- `getFramePosition` (src/index.ts:1443-1450): the first index of the
`ID3` signature, rejected when absent or past index 20. -/
def getFramePosition (buffer : List Nat) : Option Nat :=
  match indexOfSublist (asciiBytes "ID3") buffer with
  | none => none
  | some framePosition =>
    if framePosition > 20 then none else some framePosition

/-- `getTagVersion` (src/index.ts:1452-1465). -/
def getTagVersion (buffer : List Nat) : TagVersion :=
  match indexOfSublist (asciiBytes "ID3") buffer with
  | none => .unknown
  | some framePosition =>
    if framePosition > 20 then .unknown
    else if buffer.getD (framePosition + 3) 0 = 3 then .v23
    else if buffer.getD (framePosition + 3) 0 = 4 then .v24
    else .unknown

/-- `getTagsSize` (src/index.ts:1480-1482). -/
def getTagsSize (buffer : List Nat) : Nat :=
  getFrameSize buffer 6 true

/-- `getTagsFromBuffer` (src/index.ts:1311-1328), `false` as `none`. -/
def getTagsFromBuffer (filebuffer : List Nat) : Option TagMap :=
  match getFramePosition filebuffer with
  | none => none
  | some framePosition =>
    let tempBuffer := (filebuffer.drop framePosition).take 10
    let id3Version := getTagVersion tempBuffer
    if id3Version = .unknown then none
    else
      let frameSize := getTagsSize tempBuffer + 10
      let body := (List.range (frameSize - 10 + 1)).map
        (fun i => filebuffer.getD (framePosition + 10 + i) 0)
      some (getTagsFromFrames (getFramesFromID3Body body id3Version) id3Version)

/-!
## Popularimeter codec (`createPopularimeterFrame`, src/index.ts:1991-2019)

The input object's `email` is `Option`al (with the JavaScript falsiness
of the empty string honoured in the check), and `rating`/`counter` model
`Math.trunc(...)` of the supplied values: `none` is `NaN` (a non-numeric
input), `some z` the truncated integer.
-/

structure PopularimeterInput where
  email : Option (List Nat)
  rating : Option Int
  counter : Option Int
deriving DecidableEq, Repr

/-- A call to `createPopularimeterFrame` returns `null`, throws (the
`writeUInt32BE` `RangeError` on an out-of-range value), or returns the
frame buffer. -/
inductive PopmResult
  | null
  | thrown
  | frame (bytes : List Nat)
deriving DecidableEq, Repr

/-- The 10-byte `POPM` frame header with its big-endian size field,
`size = |email| + 1 (terminator) + 1 (rating) + 4 (counter)`. -/
def popmHeaderBytes (e : List Nat) : List Nat :=
  writeBytes (writeBytes (List.replicate 10 0) (asciiBytes "POPM") 0)
    (uint32BE (e.length + 1 + 1 + 4)) 4

/-- `createPopularimeterFrame` (src/index.ts:1991-2019):

```
popularimeter = popularimeter || {};
const email = popularimeter.email;
let rating = Math.trunc(popularimeter.rating);
let counter = Math.trunc(popularimeter.counter);
if (!email) { return null; }
if (isNaN(rating) || rating < 0 || rating > 255) { rating = 0; }
if (isNaN(counter) || counter < 0) { counter = 0; }
...
emailBuffer = Buffer.from(email + '\0', 'utf8');
const ratingBuffer = Buffer.alloc(1, rating);
const counterBuffer = Buffer.alloc(4, 0);
counterBuffer.writeUInt32BE(counter, 0);
buffer.writeUInt32BE(emailBuffer.length + ratingBuffer.length + counterBuffer.length, 4);
return Buffer.concat([buffer, emailBuffer, ratingBuffer, counterBuffer]);
```

`writeUInt32BE` throws once its value reaches `2^32`, modelled by the
`thrown` result. -/
def createPopularimeterFrame (popularimeter : Option PopularimeterInput) :
    PopmResult :=
  let p := popularimeter.getD ⟨none, none, none⟩
  match p.email with
  | none => .null
  | some e =>
    if e = [] then .null
    else
      let rating : Int := match p.rating with
        | none => 0
        | some r => if r < 0 ∨ r > 255 then 0 else r
      let counter : Int := match p.counter with
        | none => 0
        | some c => if c < 0 then 0 else c
      if counter < 2 ^ 32 ∧ (e.length + 1) + 1 + 4 < 2 ^ 32 then
        .frame (popmHeaderBytes e ++ (e ++ [0]) ++ [rating.toNat] ++
          uint32BE counter.toNat)
      else .thrown

/-- `isNaN(rating) || rating < 0 || rating > 255` on the truncated
input. -/
def ratingInvalid (r : Option Int) : Prop :=
  r = none ∨ ∃ z, r = some z ∧ (z < 0 ∨ 255 < z)

/-- `isNaN(counter) || counter < 0` on the truncated input. -/
def counterInvalid (c : Option Int) : Prop :=
  c = none ∨ ∃ z, c = some z ∧ z < 0

/-!
## Comment / lyrics codecs (`createLanguage`, `createCommentFrame`,
`createUnsynchronisedLyricsFrame`, src/index.ts:1754-1825, 1871-1896)

The `0x01` encoding used on this write path is iconv's `utf16` —
UTF-16LE with a byte-order mark prepended; code points are assumed below
`0x10000` (no surrogate pairs), which covers every input considered.
-/

/-- `createTextEncoding` (src/index.ts:1754-1758). -/
def createTextEncoding (encoding : Nat) : List Nat :=
  [encoding]

/-- `createLanguage` (src/index.ts:1760-1768):

```
public createLanguage(language: string) {
    if (!language) { language = 'eng'; }
    else if (language.length > 3) { language = language.substring(0, 3); }
    return Buffer.from(language);
}
```
-/
def createLanguage (language : List Nat) : List Nat :=
  if language = [] then asciiBytes "eng"
  else if language.length > 3 then language.take 3
  else language

/-- iconv's `utf16` encode: byte-order mark then UTF-16LE code units. -/
def utf16Encode (s : List Nat) : List Nat :=
  [255, 254] ++ (s.map (fun c => [c % 256, c / 256 % 256])).flatten

/-- `iconv.encode` for the encodings used by the embedded write paths:
`0x01` (`utf16`), `0x02` (`UTF-16BE`, no byte-order mark), and the
single-byte encodings `0x00`/`0x03` (identity on the byte-level string
model). -/
def encodeWithEncoding (encoding : Nat) (s : List Nat) : List Nat :=
  if encoding = 1 then utf16Encode s
  else if encoding = 2 then (s.map (fun c => [c / 256 % 256, c % 256])).flatten
  else s

/-- `getTerminationCount` (src/index.ts:1745-1752). -/
def getTerminationCount (encoding : Nat) : Nat :=
  if encoding = 0 ∨ encoding = 3 then 1 else 2

/-- `createContentDescriptor` (src/index.ts:1770-1785). -/
def createContentDescriptor (description : List Nat) (encoding : Nat)
    (terminated : Bool) : List Nat :=
  if description = [] then
    if terminated then encodeWithEncoding encoding [0] else []
  else if terminated then
    encodeWithEncoding encoding description ++
      List.replicate (getTerminationCount encoding) 0
  else encodeWithEncoding encoding description

/-- `createText` (src/index.ts:1787-1797). -/
def createText (text : List Nat) (encoding : Nat) (terminated : Bool) :
    List Nat :=
  if terminated then
    encodeWithEncoding encoding text ++
      List.replicate (getTerminationCount encoding) 0
  else encodeWithEncoding encoding text

/-- `interface Comment`: language, short description, text. -/
structure CommentInput where
  language : List Nat
  shortText : List Nat
  text : List Nat
deriving DecidableEq, Repr

/-- `createCommentFrame` (src/index.ts:1806-1825): `null` when the text
is falsy; otherwise `COMM` header + encoding byte `0x01` + language +
null-terminated UTF-16 short text + UTF-16 text. -/
def createCommentFrame (comment : Option CommentInput) : Option (List Nat) :=
  let c := comment.getD ⟨[], [], []⟩
  if c.text = [] then none
  else
    let encodingBuffer := createTextEncoding 1
    let languageBuffer := createLanguage c.language
    let descriptorBuffer := createContentDescriptor c.shortText 1 true
    let textBuffer := createText c.text 1 false
    let header := writeBytes
      (writeBytes (List.replicate 10 0) (asciiBytes "COMM") 0)
      (uint32BE (encodingBuffer.length + languageBuffer.length +
        descriptorBuffer.length + textBuffer.length)) 4
    some (header ++ encodingBuffer ++ languageBuffer ++ descriptorBuffer ++
      textBuffer)

/-!
## Chapter codec (`createChapterFrameHelper` src/index.ts:2095-2130,
`readChapterFrame` src/index.ts:2048-2078)

`class Chapter`'s optional fields are `Option`s.  The optional nested
tag (`chapter.tags`, encoded through `createBuffersFromTags` and decoded
through a recursive `getTagsFromFrames` call) lies outside the embedded
fragment: the encoder below takes the already-concatenated nested frames
buffer (`[]` for an absent `tags`) as a parameter, and the decoder
returns the byte slice handed to the recursive parse.  All `uint32`
writes are assumed below `2^32` (where `writeUInt32BE` would throw). -/

structure Chapter where
  elementID : Option (List Nat)
  startTimeMs : Option Nat
  endTimeMs : Option Nat
  startOffsetBytes : Option Nat
  endOffsetBytes : Option Nat
deriving DecidableEq, Repr

/-- `createChapterFrameHelper` (src/index.ts:2095-2130): `null` when the
chapter, its element ID, or its end time is falsy or its start time
undefined; the offset fields are written only when *truthy* — `0` falls
through to the `0xFF`-filled sentinel allocation, exactly like an absent
offset. -/
def createChapterFrameHelper (chapter : Option Chapter)
    (framesBuffer : List Nat) : Option (List Nat) :=
  match chapter with
  | none => none
  | some ch =>
    match ch.elementID, ch.startTimeMs, ch.endTimeMs with
    | some eid, some startTime, some endTime =>
      if eid = [] ∨ endTime = 0 then none
      else
        let elementIDBuffer := eid ++ [0]
        let startTimeBuffer := uint32BE startTime
        let endTimeBuffer := uint32BE endTime
        let startOffsetBytesBuffer := match ch.startOffsetBytes with
          | some v => if v = 0 then List.replicate 4 255 else uint32BE v
          | none => List.replicate 4 255
        let endOffsetBytesBuffer := match ch.endOffsetBytes with
          | some v => if v = 0 then List.replicate 4 255 else uint32BE v
          | none => List.replicate 4 255
        let header := writeBytes
          (writeBytes (List.replicate 10 0) (asciiBytes "CHAP") 0)
          (uint32BE (elementIDBuffer.length + 16 + framesBuffer.length)) 4
        some (header ++ elementIDBuffer ++ startTimeBuffer ++ endTimeBuffer ++
          startOffsetBytesBuffer ++ endOffsetBytesBuffer ++ framesBuffer)
    | _, _, _ => none

/-- The decoded chapter: absent fields are `none`; `tagsSlice` holds the
bytes the source hands to the recursive nested-tag parse, when any. -/
structure ChapterRead where
  elementID : Option (List Nat)
  startTimeMs : Option Nat
  endTimeMs : Option Nat
  startOffsetBytes : Option Nat
  endOffsetBytes : Option Nat
  tagsSlice : Option (List Nat)
deriving DecidableEq, Repr

/-- `frame.readUInt32BE(off)` (in-range under `readChapterFrame`'s length
guard). -/
def readUInt32BEAt (frame : List Nat) (off : Nat) : Nat :=
  readUIntBE4 [frame.getD off 0, frame.getD (off + 1) 0,
    frame.getD (off + 2) 0, frame.getD (off + 3) 0]

/-- `readChapterFrame` (src/index.ts:2048-2078): empty result unless a
null terminator is found with at least 16 bytes after it; each offset is
exposed only when its 4 bytes differ from the `0xFFFFFFFF` sentinel. -/
def readChapterFrame (frame : Option (List Nat)) : ChapterRead :=
  match frame with
  | none => ⟨none, none, none, none, none, none⟩
  | some f =>
    match indexOfSublist [0] f with
    | none => ⟨none, none, none, none, none, none⟩
    | some endOfElementIDString =>
      if f.length - endOfElementIDString - 1 < 16 then
        ⟨none, none, none, none, none, none⟩
      else
        { elementID := some (f.take endOfElementIDString)
          startTimeMs := some (readUInt32BEAt f (endOfElementIDString + 1))
          endTimeMs := some (readUInt32BEAt f (endOfElementIDString + 5))
          startOffsetBytes :=
            if readUInt32BEAt f (endOfElementIDString + 9) ≠ 0xFFFFFFFF then
              some (readUInt32BEAt f (endOfElementIDString + 9))
            else none
          endOffsetBytes :=
            if readUInt32BEAt f (endOfElementIDString + 13) ≠ 0xFFFFFFFF then
              some (readUInt32BEAt f (endOfElementIDString + 13))
            else none
          tagsSlice :=
            if f.length - endOfElementIDString - 17 > 0 then
              some (f.drop (endOfElementIDString + 17))
            else none }

/-- `string | object` input of `createUnsynchronisedLyricsFrame`. -/
inductive LyricsInput
  | str (s : List Nat)
  | obj (language shortText text : List Nat)
deriving DecidableEq, Repr

/-- `createUnsynchronisedLyricsFrame` (src/index.ts:1871-1896): a bare
string becomes `{language: 'eng', text}`; `null` when the text is falsy;
otherwise the `USLT` layout, identical to the comment layout. -/
def createUnsynchronisedLyricsFrame (u : Option LyricsInput) :
    Option (List Nat) :=
  let v := match u with
    | none => LyricsInput.obj [] [] []
    | some (.str s) => .obj (asciiBytes "eng") [] s
    | some (.obj language shortText text) => .obj language shortText text
  match v with
  | .str _ => none
  | .obj language shortText text =>
    if text = [] then none
    else
      let encodingBuffer := createTextEncoding 1
      let languageBuffer := createLanguage language
      let descriptorBuffer := createContentDescriptor shortText 1 true
      let textBuffer := createText text 1 false
      let header := writeBytes
        (writeBytes (List.replicate 10 0) (asciiBytes "USLT") 0)
        (uint32BE (encodingBuffer.length + languageBuffer.length +
          descriptorBuffer.length + textBuffer.length)) 4
      some (header ++ encodingBuffer ++ languageBuffer ++ descriptorBuffer ++
        textBuffer)

/-!
## Theorems
-/

theorem encodeSize_byte_eq (n k : Nat) :
    (n >>> k) &&& 0x7F = n / 2 ^ k % 128 := by
  rw [Nat.shiftRight_eq_div_pow]
  exact Nat.and_pow_two_sub_one_eq_mod _ 7

/-- **C1.** For every `n` in `[0, 2^28 − 1]`, `decodeSize (encodeSize n) = n`,
and every byte of `encodeSize n` has its high bit (0x80) clear. -/
theorem decodeSize_encodeSize (n : Nat) (h : n < 2 ^ 28) :
    decodeSize (encodeSize n) = n ∧ ∀ b ∈ encodeSize n, b < 0x80 := by
  constructor
  · simp only [decodeSize, encodeSize, List.getD_cons_zero, List.getD_cons_succ,
      Nat.shiftLeft_eq, encodeSize_byte_eq]
    have h0 : n &&& 0x7F = n / 2 ^ 0 % 128 := by
      simpa using encodeSize_byte_eq n 0
    rw [h0]
    omega
  · intro b hb
    simp only [encodeSize, List.mem_cons, List.not_mem_nil, or_false] at hb
    have hle : ∀ m : Nat, m &&& 0x7F ≤ 0x7F := fun m => Nat.and_le_right
    rcases hb with rfl | rfl | rfl | rfl <;>
      exact Nat.lt_of_le_of_lt (hle _) (by norm_num)

/-- Witness for C1 at `n = 2 ^ 28 - 1`. -/
theorem decodeSize_encodeSize_witness :
    decodeSize (encodeSize (2 ^ 28 - 1)) = 2 ^ 28 - 1 ∧
      ∀ b ∈ encodeSize (2 ^ 28 - 1), b < 0x80 :=
  decodeSize_encodeSize (2 ^ 28 - 1) (by norm_num)

theorem getTextFrameHeaderSize_pos (version : TagVersion) :
    0 < getTextFrameHeaderSize version := by
  cases version <;> simp [getTextFrameHeaderSize]

/-- Fuel adequacy: any fuel exceeding the remaining byte count yields the
same frame list, so `getFramesFromID3Body`'s choice of
`body.length + 1` is exactly the source loop. -/
theorem getFramesFromID3BodyAux_fuel (body : List Nat) (version : TagVersion) :
    ∀ fuel₁ fuel₂ pos, body.length - pos < fuel₁ → body.length - pos < fuel₂ →
      getFramesFromID3BodyAux body version pos fuel₁ =
        getFramesFromID3BodyAux body version pos fuel₂ := by
  intro fuel₁
  induction fuel₁ with
  | zero => intro fuel₂ pos h₁ _; omega
  | succ f ih =>
    intro fuel₂ pos h₁ h₂
    cases fuel₂ with
    | zero => omega
    | succ g =>
      simp only [getFramesFromID3BodyAux]
      by_cases hc : pos < body.length ∧ body.getD pos 0 ≠ 0
      · rw [if_pos hc, if_pos hc]
        by_cases hsz : frameSizeAt body version pos > body.length - pos
        · rw [if_pos hsz, if_pos hsz]
        · rw [if_neg hsz, if_neg hsz]
          have hhdr := getTextFrameHeaderSize_pos version
          exact congrArg _ (ih _ _ (by omega) (by omega))
      · rw [if_neg hc, if_neg hc]

theorem getFramesFromID3BodyAux_step (body : List Nat) (version : TagVersion)
    (pos fuel : Nat) (hc : pos < body.length ∧ body.getD pos 0 ≠ 0)
    (hsz : ¬ frameSizeAt body version pos > body.length - pos) :
    getFramesFromID3BodyAux body version pos (fuel + 1) =
      frameAt body version pos ::
        getFramesFromID3BodyAux body version
          (pos + frameSizeAt body version pos + getTextFrameHeaderSize version) fuel := by
  simp only [getFramesFromID3BodyAux]
  rw [if_pos hc, if_neg hsz]

theorem getFramesFromID3BodyAux_stop (body : List Nat) (version : TagVersion)
    (pos fuel : Nat) (h : ¬(pos < body.length ∧ body.getD pos 0 ≠ 0)) :
    getFramesFromID3BodyAux body version pos (fuel + 1) = [] := by
  simp only [getFramesFromID3BodyAux]
  rw [if_neg h]

theorem getFramesFromID3BodyAux_break (body : List Nat) (version : TagVersion)
    (pos fuel : Nat) (hc : pos < body.length ∧ body.getD pos 0 ≠ 0)
    (hsz : frameSizeAt body version pos > body.length - pos) :
    getFramesFromID3BodyAux body version pos (fuel + 1) = [] := by
  simp only [getFramesFromID3BodyAux]
  rw [if_pos hc, if_pos hsz]

theorem getTextFrameHeaderSize_of_ne_v22 {v : TagVersion} (h : v ≠ .v22) :
    getTextFrameHeaderSize v = 10 := by
  cases v <;> simp_all [getTextFrameHeaderSize]

theorem getIdentifierSize_of_ne_v22 {v : TagVersion} (h : v ≠ .v22) :
    getIdentifierSize v = 4 := by
  cases v <;> simp_all [getIdentifierSize]

theorem frameHeaderAt_congr {v v' : TagVersion} (body : List Nat) (pos : Nat)
    (h : getTextFrameHeaderSize v = getTextFrameHeaderSize v') :
    frameHeaderAt body v pos = frameHeaderAt body v' pos := by
  simp [frameHeaderAt, h]

theorem frameSizeAt_congr {v v' : TagVersion} (body : List Nat) (pos : Nat)
    (h : getTextFrameHeaderSize v = getTextFrameHeaderSize v') :
    frameSizeAt body v pos = frameSizeAt body v' pos := by
  simp [frameSizeAt, frameHeaderAt_congr body pos h]

theorem frameAt_congr {v v' : TagVersion} (body : List Nat) (pos : Nat)
    (h : getTextFrameHeaderSize v = getTextFrameHeaderSize v')
    (h' : getIdentifierSize v = getIdentifierSize v') :
    frameAt body v pos = frameAt body v' pos := by
  simp [frameAt, frameHeaderAt_congr body pos h, frameSizeAt_congr body pos h, h, h']

theorem getFramesFromID3BodyAux_version_congr {v v' : TagVersion}
    (body : List Nat)
    (h : getTextFrameHeaderSize v = getTextFrameHeaderSize v')
    (h' : getIdentifierSize v = getIdentifierSize v') :
    ∀ fuel pos, getFramesFromID3BodyAux body v pos fuel =
      getFramesFromID3BodyAux body v' pos fuel := by
  intro fuel
  induction fuel with
  | zero => intro pos; rfl
  | succ f ih =>
    intro pos
    by_cases hc : pos < body.length ∧ body.getD pos 0 ≠ 0
    · by_cases hsz : frameSizeAt body v pos > body.length - pos
      · rw [getFramesFromID3BodyAux_break body v pos f hc hsz,
          getFramesFromID3BodyAux_break body v' pos f hc
            (by rwa [← frameSizeAt_congr body pos h])]
      · rw [getFramesFromID3BodyAux_step body v pos f hc hsz,
          getFramesFromID3BodyAux_step body v' pos f hc
            (by rwa [← frameSizeAt_congr body pos h]),
          frameAt_congr body pos h h', frameSizeAt_congr body pos h, h, ih]
    · rw [getFramesFromID3BodyAux_stop body v pos f hc,
        getFramesFromID3BodyAux_stop body v' pos f hc]

/-- The header bytes at `pos` for a version with a 10-byte frame header. -/
theorem frameHeaderAt_of_ne_v22 {v : TagVersion} (hv : v ≠ .v22)
    (body : List Nat) (pos : Nat) :
    frameHeaderAt body v pos =
      [body.getD (pos + 0) 0, body.getD (pos + 1) 0, body.getD (pos + 2) 0,
       body.getD (pos + 3) 0, body.getD (pos + 4) 0, body.getD (pos + 5) 0,
       body.getD (pos + 6) 0, body.getD (pos + 7) 0, body.getD (pos + 8) 0,
       body.getD (pos + 9) 0] := by
  simp only [frameHeaderAt, getTextFrameHeaderSize_of_ne_v22 hv]
  rfl

/-- **C2, counterexample.**  A v2.4 tag body whose single frame has its
second flags byte equal to `0x00` and size field `[0,0,1,0]`: the splitter
slices a 256-byte frame body (the plain big-endian reading), not the
128-byte one the synchronization-safe decoding would give, so the size
field of a v2.4 frame is *not* decoded as a synchronization-safe integer. -/
theorem frameSplitter_v24_not_syncsafe_counterexample :
    ((getFramesFromID3Body
        ([84, 73, 84, 50, 0, 0, 1, 0, 0, 0] ++ List.replicate 256 1)
        TagVersion.v24).map fun f => f.body.length) = [256] ∧
      decodeSize [0, 0, 1, 0] = 128 ∧ (256 : Nat) ≠ 128 := by
  refine ⟨by decide, by decide, by decide⟩

/-- **C2, amended.**  The frame splitter decodes the 4-byte size field as a
synchronization-safe integer exactly when bit 1 of the frame's second
flags byte (header offset 9) is set, and as a plain 32-bit big-endian
integer otherwise — independently of the tag version: v2.3, v2.4 and
unknown versions parse identically (only v2.2 differs, through its 6-byte
header). -/
theorem frameSplitter_size_decode_by_flag :
    (∀ (body : List Nat) (v v' : TagVersion), v ≠ .v22 → v' ≠ .v22 →
      getFramesFromID3Body body v = getFramesFromID3Body body v') ∧
    ∀ (body : List Nat) (v : TagVersion), v ≠ .v22 → body.getD 0 0 ≠ 0 →
      ∀ sz : Nat,
        sz = (if body.getD 9 0 &&& 2 ≠ 0
          then decodeSize [body.getD 4 0, body.getD 5 0, body.getD 6 0,
            body.getD 7 0]
          else readUIntBE4 [body.getD 4 0, body.getD 5 0, body.getD 6 0,
            body.getD 7 0]) →
        sz ≤ body.length →
        ((getFramesFromID3Body body v).head?.map fun f => f.body.length) =
          some sz := by
  constructor
  · intro body v v' hv hv'
    exact getFramesFromID3BodyAux_version_congr body
      (by rw [getTextFrameHeaderSize_of_ne_v22 hv,
        getTextFrameHeaderSize_of_ne_v22 hv'])
      (by rw [getIdentifierSize_of_ne_v22 hv, getIdentifierSize_of_ne_v22 hv'])
      _ _
  · intro body v hv h0 sz hsz hle
    have hlen : 0 < body.length := by
      rcases body with _ | ⟨b, rest⟩
      · simp [List.getD] at h0
      · simp
    have hsize : frameSizeAt body v 0 = sz := by
      rw [frameSizeAt, getFrameSize, unsyncFlag, frameHeaderAt_of_ne_v22 hv]
      subst hsz
      by_cases h9 : body.getD 9 0 &&& 2 = 0 <;>
        simp [List.getD_cons_succ, List.getD_cons_zero, h9, decodeSize,
          readUIntBE4, Nat.zero_add]
    rw [getFramesFromID3Body,
      getFramesFromID3BodyAux_step body v 0 body.length ⟨hlen, h0⟩
        (by rw [hsize]; omega)]
    simp [frameAt, hsize]

/-- Witness for the amended C2 on a one-frame v2.4 body with the
unsynchronization flag clear. -/
theorem frameSplitter_size_decode_by_flag_witness :
    ((getFramesFromID3Body [84, 73, 84, 50, 0, 0, 0, 2, 0, 0, 7, 7]
        TagVersion.v24).head?.map fun f => f.body.length) = some 2 :=
  frameSplitter_size_decode_by_flag.2
    [84, 73, 84, 50, 0, 0, 0, 2, 0, 0, 7, 7] TagVersion.v24
    (by decide) (by decide) 2 (by decide) (by decide)

/-- Every frame emitted from position `pos` onward declares a body size
that fits within the bytes remaining at its own start position (which is
at or after `pos`). -/
theorem frames_size_le_aux (body : List Nat) (version : TagVersion) :
    ∀ fuel pos, ∀ f ∈ getFramesFromID3BodyAux body version pos fuel,
      f.body.length ≤ body.length - pos := by
  intro fuel
  induction fuel with
  | zero => intro pos f hf; simp [getFramesFromID3BodyAux] at hf
  | succ fl ih =>
    intro pos f hf
    by_cases hc : pos < body.length ∧ body.getD pos 0 ≠ 0
    · by_cases hsz : frameSizeAt body version pos > body.length - pos
      · rw [getFramesFromID3BodyAux_break body version pos fl hc hsz] at hf
        simp at hf
      · rw [getFramesFromID3BodyAux_step body version pos fl hc hsz] at hf
        rcases List.mem_cons.mp hf with rfl | htail
        · have : (frameAt body version pos).body.length =
              frameSizeAt body version pos := by simp [frameAt]
          omega
        · have := ih _ f htail
          omega
    · rw [getFramesFromID3BodyAux_stop body version pos fl hc] at hf
      simp at hf

/-- **C4.**  The splitter stops exactly at padding, exhaustion or a
truncated frame, raising no error (it is a total function returning the
frames parsed so far):
(1) a buffer of all zero bytes yields no frames;
(2) every frame it returns from any starting position declares a body size
within the bytes remaining there — so a frame claiming a size greater
than the remaining buffer is never included;
(3) a first frame claiming a size greater than the whole buffer stops the
splitter with no output;
(4) it stops no earlier than that: when the first byte is non-null and
the first declared frame size fits, at least one frame is returned. -/
theorem frameSplitter_stopping :
    (∀ (n : Nat) (version : TagVersion),
      getFramesFromID3Body (List.replicate n 0) version = []) ∧
    (∀ (body : List Nat) (version : TagVersion) (fuel pos : Nat),
      ∀ f ∈ getFramesFromID3BodyAux body version pos fuel,
        f.body.length ≤ body.length - pos) ∧
    (∀ (body : List Nat) (version : TagVersion), body.getD 0 0 ≠ 0 →
      frameSizeAt body version 0 > body.length →
      getFramesFromID3Body body version = []) ∧
    ∀ (body : List Nat) (version : TagVersion), body.getD 0 0 ≠ 0 →
      frameSizeAt body version 0 ≤ body.length →
      getFramesFromID3Body body version ≠ [] := by
  have hlen_pos : ∀ body : List Nat, body.getD 0 0 ≠ 0 → 0 < body.length := by
    intro body h0
    rcases body with _ | ⟨b, rest⟩
    · simp [List.getD] at h0
    · simp
  refine ⟨?_, ?_, ?_, ?_⟩
  · intro n version
    rcases n with _ | m
    · rfl
    · rw [getFramesFromID3Body, List.length_replicate,
        getFramesFromID3BodyAux_stop]
      simp [List.getD]
  · exact frames_size_le_aux
  · intro body version h0 hbig
    rw [getFramesFromID3Body,
      getFramesFromID3BodyAux_break body version 0 body.length
        ⟨hlen_pos body h0, h0⟩ (by omega)]
  · intro body version h0 hfit
    rw [getFramesFromID3Body,
      getFramesFromID3BodyAux_step body version 0 body.length
        ⟨hlen_pos body h0, h0⟩ (by omega)]
    simp

/-- Witness for C4: an all-zero buffer splits to nothing; a one-frame body
whose frame claims 200 bytes with only 10 available splits to nothing; a
one-frame body with a fitting size splits to a non-empty frame list. -/
theorem frameSplitter_stopping_witness :
    getFramesFromID3Body (List.replicate 64 0) TagVersion.v24 = [] ∧
      getFramesFromID3Body [84, 73, 84, 50, 0, 0, 0, 200, 0, 0]
        TagVersion.v24 = [] ∧
      getFramesFromID3Body [84, 73, 84, 50, 0, 0, 0, 0, 0, 0]
        TagVersion.v24 ≠ [] :=
  ⟨frameSplitter_stopping.1 64 TagVersion.v24,
    frameSplitter_stopping.2.2.1 [84, 73, 84, 50, 0, 0, 0, 200, 0, 0]
      TagVersion.v24 (by decide) (by decide),
    frameSplitter_stopping.2.2.2 [84, 73, 84, 50, 0, 0, 0, 0, 0, 0]
      TagVersion.v24 (by decide) (by decide)⟩

/-- **C5.**  Encoding `["a","b","c"]` with `createTextFrame`, splitting
the result with the frame splitter and decoding the frame body returns
the ordered sequence `["a","b","c"]`; encoding the single-element
sequence `["a"]` and decoding returns the bare string `"a"`. -/
theorem textFrame_multiValue_roundtrip :
    ((createTextFrame (asciiBytes "TIT2") (.arr [[97], [98], [99]])).map
        fun tag => (getFramesFromID3Body tag TagVersion.v24).map
          fun f => decodeTextFrameBody f.body) =
      some [.multi [[97], [98], [99]]] ∧
    ((createTextFrame (asciiBytes "TIT2") (.arr [[97]])).map
        fun tag => (getFramesFromID3Body tag TagVersion.v24).map
          fun f => decodeTextFrameBody f.body) =
      some [.single [97]] := by
  refine ⟨by decide, by decide⟩

theorem TagMap.lookupAlias_setAlias_same (m : TagMap) (k : String)
    (v : TagValue) : (m.setAlias k v).lookupAlias k = some v := by
  simp [TagMap.setAlias, TagMap.lookupAlias]

theorem TagMap.lookupAlias_setAlias_ne (m : TagMap) (k k' : String)
    (v : TagValue) (h : k ≠ k') :
    (m.setAlias k v).lookupAlias k' = m.lookupAlias k' := by
  simp [TagMap.setAlias, TagMap.lookupAlias, List.find?_cons, h]

theorem TagMap.lookupAlias_setRaw (m : TagMap) (k : List Nat)
    (v : TagValue) (k' : String) :
    (m.setRaw k v).lookupAlias k' = m.lookupAlias k' := rfl

theorem processSpecialFrame_lookupAlias_date (frame : Frame) (tags : TagMap) :
    (processSpecialFrame frame tags).lookupAlias "date" =
      tags.lookupAlias "date" := by
  simp only [processSpecialFrame, specialFrameNames, List.foldl_cons,
    List.foldl_nil]
  split_ifs <;>
    simp_all [TagMap.lookupAlias_setAlias_ne, TagMap.lookupAlias_setRaw]

theorem textAliasStep_lookupAlias_preserved (version : TagVersion)
    (frame : Frame) :
    ∀ (tFrames : List (String × FrameDef)) (st : TagMap × TextValue × Bool),
      (∀ kv ∈ tFrames, kv.2.key = frame.name → kv.1 ≠ "date") →
      ((tFrames.foldl (textAliasStep version frame) st).1).lookupAlias "date" =
        (st.1).lookupAlias "date" := by
  intro tFrames
  induction tFrames with
  | nil => intro st _; rfl
  | cons kv rest ih =>
    intro st h
    rw [List.foldl_cons]
    rw [ih _ (fun e he => h e (List.mem_cons_of_mem kv he))]
    by_cases hk : kv.2.key = frame.name
    · simp only [textAliasStep, if_pos hk]
      exact TagMap.lookupAlias_setAlias_ne _ _ _ _
        (h kv (List.mem_cons_self kv rest) hk)
    · simp only [textAliasStep, if_neg hk]

theorem legacy_find_none (name : List Nat) (h1 : name ≠ asciiBytes "TYER")
    (h2 : name ≠ asciiBytes "TIME") (h3 : name ≠ asciiBytes "TRDA") :
    LegacyFramesRemapped.find? (fun p => p.1 == name) = none := by
  rw [List.find?_eq_none]
  intro p hp
  simp only [LegacyFramesRemapped, List.mem_cons, List.not_mem_nil,
    or_false] at hp
  rcases hp with rfl | rfl | rfl <;> simp [beq_iff_eq] <;>
    [exact fun e => h1 e.symm; exact fun e => h2 e.symm;
      exact fun e => h3 e.symm]

theorem processTextFrame_date_preserved (tFrames : List (String × FrameDef))
    (v : TagVersion) (frame : Frame) (tags : TagMap)
    (hmatch : ∀ kv ∈ tFrames, kv.2.key = frame.name → kv.1 ≠ "date")
    (hleg : LegacyFramesRemapped.find? (fun p => p.1 == frame.name) = none) :
    (processTextFrame tFrames v frame tags).lookupAlias "date" =
      tags.lookupAlias "date" := by
  simp only [processTextFrame, hleg, ite_self]
  rw [textAliasStep_lookupAlias_preserved v frame tFrames _ hmatch]
  rfl

/-- A frame whose identifier writes the `date` alias leaves exactly its
decoded text there. -/
theorem processFrame_date_writer {v : TagVersion} (hv : v = .v23 ∨ v = .v24)
    (frame : Frame) (tags : TagMap) (h : frame.name ∈ dateAliasWriters v) :
    (processFrame v frame tags).lookupAlias "date" =
      some (.text (decodeTextFrameBody frame.body)) := by
  rcases hv with rfl | rfl
  · have h' : frame.name = asciiBytes "TDAT" ∨ frame.name = asciiBytes "TYER" ∨
        frame.name = asciiBytes "TIME" ∨ frame.name = asciiBytes "TRDA" := by
      simpa [dateAliasWriters] using h
    rcases h' with hname | hname | hname | hname <;>
      simp +decide [processFrame, hname, getVersionedFrameDefinitions,
        processTextFrame, textAliasStep, ID3v23Frames, resplitV23,
        LegacyFramesRemapped, TagMap.lookupAlias_setAlias_same,
        TagMap.lookupAlias_setAlias_ne, TagMap.lookupAlias_setRaw]
  · have h' : frame.name = asciiBytes "TDRC" ∨ frame.name = asciiBytes "TYER" ∨
        frame.name = asciiBytes "TRDA" := by
      simpa [dateAliasWriters] using h
    rcases h' with hname | hname | hname <;>
      simp +decide [processFrame, hname, getVersionedFrameDefinitions,
        processTextFrame, textAliasStep, ID3v24Frames, resplitV23,
        LegacyFramesRemapped, TagMap.lookupAlias_setAlias_same,
        TagMap.lookupAlias_setAlias_ne, TagMap.lookupAlias_setRaw]

/-- A frame whose identifier is not a `date` writer leaves the `date`
alias untouched. -/
theorem processFrame_date_preserved {v : TagVersion} (hv : v = .v23 ∨ v = .v24)
    (frame : Frame) (tags : TagMap) (h : frame.name ∉ dateAliasWriters v) :
    (processFrame v frame tags).lookupAlias "date" =
      tags.lookupAlias "date" := by
  by_cases htext : frame.name.getD 0 0 = 84 ∧ frame.name ≠ asciiBytes "TXXX"
  · rw [processFrame, if_pos htext]
    rcases hv with rfl | rfl
    · have h' : ¬(frame.name = asciiBytes "TDAT" ∨
          frame.name = asciiBytes "TYER" ∨ frame.name = asciiBytes "TIME" ∨
          frame.name = asciiBytes "TRDA") := by
        simpa [dateAliasWriters] using h
      push_neg at h'
      obtain ⟨hd, hy, hi, hr⟩ := h'
      apply processTextFrame_date_preserved _ _ _ _ ?_
        (legacy_find_none _ hy hi hr)
      intro kv hkv hkey h1
      have hdd : ∀ kv ∈ ID3v23Frames, kv.1 = "date" →
          kv.2.key = asciiBytes "TDAT" := by decide
      have := hdd kv (by simpa [getVersionedFrameDefinitions] using hkv) h1
      exact hd (by rw [← hkey, this])
    · by_cases htime : frame.name = asciiBytes "TIME"
      · simp +decide [processFrame, htime, getVersionedFrameDefinitions,
          processTextFrame, textAliasStep, ID3v24Frames, resplitV23,
          LegacyFramesRemapped, TagMap.lookupAlias_setAlias_same,
          TagMap.lookupAlias_setAlias_ne, TagMap.lookupAlias_setRaw]
      · have h' : ¬(frame.name = asciiBytes "TDRC" ∨
            frame.name = asciiBytes "TYER" ∨
            frame.name = asciiBytes "TRDA") := by
          simpa [dateAliasWriters] using h
        push_neg at h'
        obtain ⟨hd, hy, hr⟩ := h'
        apply processTextFrame_date_preserved _ _ _ _ ?_
          (legacy_find_none _ hy htime hr)
        intro kv hkv hkey h1
        have hdd : ∀ kv ∈ ID3v24Frames, kv.1 = "date" →
            kv.2.key = asciiBytes "TDRC" := by decide
        have := hdd kv (by simpa [getVersionedFrameDefinitions] using hkv) h1
        exact hd (by rw [← hkey, this])
  · rw [processFrame, if_neg htext]
    exact processSpecialFrame_lookupAlias_date frame tags

theorem getTagsFromFrames_date_fold {v : TagVersion} (hv : v = .v23 ∨ v = .v24) :
    ∀ (frames : List Frame) (tags : TagMap),
      (frames.foldl (fun tags frame => processFrame v frame tags)
          tags).lookupAlias "date" =
        match (frames.filter fun f =>
            decide (f.name ∈ dateAliasWriters v)).getLast? with
        | some f => some (.text (decodeTextFrameBody f.body))
        | none => tags.lookupAlias "date" := by
  intro frames
  induction frames using List.reverseRecOn with
  | nil => intro tags; rfl
  | append_singleton init f ih =>
    intro tags
    rw [List.foldl_append, List.foldl_cons, List.foldl_nil, List.filter_append]
    by_cases hf : f.name ∈ dateAliasWriters v
    · rw [processFrame_date_writer hv f _ hf]
      have : (List.filter (fun f => decide (f.name ∈ dateAliasWriters v)) [f])
          = [f] := by
        simp [List.filter, hf]
      rw [this, List.getLast?_concat]
    · rw [processFrame_date_preserved hv f _ hf, ih tags]
      have : (List.filter (fun f => decide (f.name ∈ dateAliasWriters v)) [f])
          = [] := by
        simp [List.filter, hf]
      rw [this, List.append_nil]

/-- **C9, counterexample.**  A v2.4 tag whose frames are `TYER "1999"`
followed by `TRDA "2000"` contains a `TYER` frame and no `TDRC` frame,
yet the `date` alias holds `"2000"` (the later legacy frame's value),
not the `TYER` frame's decoded value `"1999"`: the legacy remap is
applied per frame whether or not `date` was already written, and later
writes overwrite earlier ones. -/
theorem date_alias_tyer_overwritten_counterexample :
    ((getTagsFromFrames
        [⟨asciiBytes "TYER", 3 :: asciiBytes "1999", false, false⟩,
         ⟨asciiBytes "TRDA", 3 :: asciiBytes "2000", false, false⟩]
        TagVersion.v24).lookupAlias "date" =
      some (.text (.single (asciiBytes "2000")))) ∧
    (TextValue.single (asciiBytes "2000")) ≠ .single (asciiBytes "1999") := by
  refine ⟨by decide, by decide⟩

/-- **C9, amended.**  For a v2.3 or v2.4 tag, the `date` alias holds the
decoded text of the *last* frame whose identifier writes `date`: the
version's directly-mapped frame (`TDRC` for v2.4, `TDAT` for v2.3) or a
legacy identifier absent from the version's table (`TYER`, `TRDA`, and
for v2.3 also `TIME`), and it is absent when the tag has no such frame.
The legacy remap is applied per frame — whenever the frame's own
identifier is not in the version's table — regardless of whether a
direct `date`-mapped frame was found; in particular a tag whose only
`date`-writing frame is a `TYER` frame (and which has no `TDRC` frame)
exposes the `TYER` value under `date`. -/
theorem getTagsFromFrames_date_alias (frames : List Frame) (v : TagVersion)
    (hv : v = .v23 ∨ v = .v24) :
    (getTagsFromFrames frames v).lookupAlias "date" =
      ((frames.filter fun f =>
          decide (f.name ∈ dateAliasWriters v)).getLast?).map
        fun f => TagValue.text (decodeTextFrameBody f.body) := by
  rw [getTagsFromFrames, getTagsFromFrames_date_fold hv]
  cases h : (frames.filter fun f =>
      decide (f.name ∈ dateAliasWriters v)).getLast? <;> simp [TagMap.lookupAlias]

/-- Witness for the amended C9: a v2.4 tag holding only a `TYER` frame
exposes its value under `date`. -/
theorem getTagsFromFrames_date_alias_witness :
    (getTagsFromFrames
        [⟨asciiBytes "TYER", 3 :: asciiBytes "1999", false, false⟩]
        TagVersion.v24).lookupAlias "date" =
      some (.text (.single (asciiBytes "1999"))) := by
  rw [getTagsFromFrames_date_alias _ _ (Or.inr rfl)]
  decide

theorem indexOfSublist_of_isPrefixOf {pat s : List Nat}
    (h : pat.isPrefixOf s) : indexOfSublist pat s = some 0 := by
  cases s <;> simp [indexOfSublist, h]

theorem indexOfSublist_isPrefixOf_drop {pat s : List Nat} :
    ∀ {i : Nat}, indexOfSublist pat s = some i →
      pat.isPrefixOf (s.drop i) = true := by
  induction s with
  | nil =>
    intro i h
    simp only [indexOfSublist] at h
    split at h
    · cases h; simpa using (by assumption : pat.isPrefixOf ([] : List Nat) = true)
    · cases h
  | cons b t ih =>
    intro i h
    simp only [indexOfSublist] at h
    split at h
    · cases h; simpa using (by assumption : pat.isPrefixOf (b :: t) = true)
    · rcases Option.map_eq_some'.mp h with ⟨j, hj, rfl⟩
      simpa using ih hj

theorem isPrefixOf_take_of_isPrefixOf {pat l : List Nat} {n : Nat}
    (hlen : pat.length ≤ n) (h : pat.isPrefixOf l = true) :
    pat.isPrefixOf (l.take n) = true := by
  rw [List.isPrefixOf_iff_prefix] at h ⊢
  obtain ⟨t, rfl⟩ := h
  rw [List.take_append_eq_append_take, List.take_of_length_le hlen]
  exact ⟨_, rfl⟩

theorem tempBuffer_version_byte (buf : List Nat) (fp : Nat) :
    ((buf.drop fp).take 10).getD 3 0 = buf.getD (fp + 3) 0 := by
  simp [List.getD, List.getElem?_take, List.getElem?_drop]

theorem getTagVersion_tempBuffer (buf : List Nat) (fp : Nat)
    (hpre : (asciiBytes "ID3").isPrefixOf (buf.drop fp) = true) :
    getTagVersion ((buf.drop fp).take 10) =
      (if buf.getD (fp + 3) 0 = 3 then .v23
       else if buf.getD (fp + 3) 0 = 4 then .v24 else .unknown) := by
  have h0 : indexOfSublist (asciiBytes "ID3") ((buf.drop fp).take 10) =
      some 0 :=
    indexOfSublist_of_isPrefixOf
      (isPrefixOf_take_of_isPrefixOf (by decide) hpre)
  simp only [getTagVersion, h0]
  norm_num [tempBuffer_version_byte buf fp]

/-- **C7, amended.**  `getTagsFromBuffer` returns `false` exactly when the
first occurrence of the `ID3` signature is absent or starts past index
20 (so a signature starting at index 20 — beyond the first 20 bytes —
is still accepted), or when the byte 3 positions after the signature is
neither 3 nor 4; in every other case it returns a tag mapping. -/
theorem getTagsFromBuffer_failure_characterization :
    (∀ buf : List Nat, indexOfSublist (asciiBytes "ID3") buf = none →
      getTagsFromBuffer buf = none) ∧
    (∀ (buf : List Nat) (fp : Nat),
      indexOfSublist (asciiBytes "ID3") buf = some fp → 20 < fp →
      getTagsFromBuffer buf = none) ∧
    ∀ (buf : List Nat) (fp : Nat),
      indexOfSublist (asciiBytes "ID3") buf = some fp → fp ≤ 20 →
      (getTagsFromBuffer buf = none ↔
        (buf.getD (fp + 3) 0 ≠ 3 ∧ buf.getD (fp + 3) 0 ≠ 4)) := by
  refine ⟨?_, ?_, ?_⟩
  · intro buf h
    simp [getTagsFromBuffer, getFramePosition, h]
  · intro buf fp h hgt
    simp [getTagsFromBuffer, getFramePosition, h, if_pos hgt]
  · intro buf fp h hle
    have hfp : getFramePosition buf = some fp := by
      simp [getFramePosition, h, Nat.not_lt.mpr hle]
    have hver := getTagVersion_tempBuffer buf fp
      (indexOfSublist_isPrefixOf_drop h)
    simp only [getTagsFromBuffer, hfp, hver]
    split_ifs <;> simp_all

/-- Witness for the amended C7: a buffer starting with `ID3` and version
byte 5 is rejected. -/
theorem getTagsFromBuffer_failure_characterization_witness :
    getTagsFromBuffer (asciiBytes "ID3" ++ [5, 0, 0, 0, 0, 0, 0]) = none :=
  (getTagsFromBuffer_failure_characterization.2.2
      (asciiBytes "ID3" ++ [5, 0, 0, 0, 0, 0, 0]) 0 (by decide)
      (by decide)).mpr
    (by decide)

/-- **C7, counterexample.**  A buffer whose `ID3` signature does not
occur anywhere within the first 20 bytes (its first occurrence starts at
index 20) is still read successfully: the source accepts positions up to
and including 20 (`framePosition > 20`). -/
theorem getTagsFromBuffer_signature_at_20_counterexample :
    ((getTagsFromBuffer (List.replicate 20 65 ++ asciiBytes "ID3" ++
        [4, 0, 0, 0, 0, 0, 0])).isSome = true) ∧
    ∀ i < 20, (asciiBytes "ID3").isPrefixOf
        ((List.replicate 20 65 ++ asciiBytes "ID3" ++
          [4, 0, 0, 0, 0, 0, 0]).drop i) = false := by
  refine ⟨by decide, by decide⟩

/-- **C10.**  When the decoded text begins with the sentinel — i.e. the
frame text begins with a null character, such as an empty first value —
`splitMultiValues` returns the string unsplit (the truthiness check
`if (valueString.indexOf(multiValueSplitter))` fails at index `0`), so
the public read value contains the literal `#BREAK_HERE#` token in place
of every null separator.  Concretely, a `TPE1` body `\x03\0a\0b` surfaces
under the `artist` alias as the single string
`#BREAK_HERE#a#BREAK_HERE#b`. -/
theorem splitMultiValues_sentinel_leak :
    (∀ s : List Nat, multiValueSplitter.isPrefixOf s →
      splitMultiValues s = .single s) ∧
    decodeTextFrameBody [3, 0, 97, 0, 98] =
      .single (multiValueSplitter ++ 97 :: (multiValueSplitter ++ [98])) ∧
    (getTagsFromFrames [⟨asciiBytes "TPE1", [3, 0, 97, 0, 98], false, false⟩]
        TagVersion.v24).lookupAlias "artist" =
      some (.text (.single
        (multiValueSplitter ++ 97 :: (multiValueSplitter ++ [98])))) ∧
    multiValueSplitter <:+: multiValueSplitter ++ 97 :: (multiValueSplitter ++ [98]) := by
  refine ⟨?_, by decide, by decide, by decide⟩
  intro s h
  simp [splitMultiValues, indexOfSublist_of_isPrefixOf h]

/-- Witness for C10 on the decoded text `#BREAK_HERE#a`. -/
theorem splitMultiValues_sentinel_leak_witness :
    splitMultiValues (multiValueSplitter ++ [97]) =
      .single (multiValueSplitter ++ [97]) :=
  splitMultiValues_sentinel_leak.1 (multiValueSplitter ++ [97]) (by decide)

/-- **C6.**  `createPopularimeterFrame` omits the frame (`null`) whenever
the email is absent (or empty, the other falsy string); it encodes rating
byte `0` whenever the supplied rating is non-numeric or outside
`[0, 255]`; and it encodes counter bytes `0` whenever the supplied
counter is non-numeric or below `0`. -/
theorem createPopularimeterFrame_clamping :
    (createPopularimeterFrame none = .null ∧
      ∀ r c : Option Int, createPopularimeterFrame (some ⟨none, r, c⟩) = .null) ∧
    (∀ (e : List Nat) (r c : Option Int), e ≠ [] →
      (e.length + 1) + 1 + 4 < 2 ^ 32 →
      ratingInvalid r → counterInvalid c →
      createPopularimeterFrame (some ⟨some e, r, c⟩) =
        .frame (popmHeaderBytes e ++ (e ++ [0]) ++ [0] ++ [0, 0, 0, 0])) ∧
    (∀ (e : List Nat) (r : Option Int) (z : Int), e ≠ [] →
      (e.length + 1) + 1 + 4 < 2 ^ 32 → ratingInvalid r → 0 ≤ z →
      z < 2 ^ 32 →
      createPopularimeterFrame (some ⟨some e, r, some z⟩) =
        .frame (popmHeaderBytes e ++ (e ++ [0]) ++ [0] ++
          uint32BE z.toNat)) ∧
    ∀ (e : List Nat) (z : Int) (c : Option Int), e ≠ [] →
      (e.length + 1) + 1 + 4 < 2 ^ 32 → counterInvalid c → 0 ≤ z →
      z ≤ 255 →
      createPopularimeterFrame (some ⟨some e, some z, c⟩) =
        .frame (popmHeaderBytes e ++ (e ++ [0]) ++ [z.toNat] ++
          [0, 0, 0, 0]) := by
  refine ⟨⟨rfl, fun r c => rfl⟩, ?_, ?_, ?_⟩
  · intro e r c he hlen hr hc
    have hrc : (match r with
        | none => (0 : Int)
        | some x => if x < 0 ∨ x > 255 then 0 else x) = 0 := by
      rcases hr with rfl | ⟨z, rfl, hz⟩
      · rfl
      · simp only [gt_iff_lt]
        rw [if_pos (by omega)]
    have hcc : (match c with
        | none => (0 : Int)
        | some x => if x < 0 then 0 else x) = 0 := by
      rcases hc with rfl | ⟨z, rfl, hz⟩
      · rfl
      · simp [hz]
    simp only [createPopularimeterFrame, Option.getD_some, if_neg he, hrc, hcc]
    rw [if_pos ⟨by norm_num, hlen⟩]
    rfl
  · intro e r z he hlen hr hz0 hz32
    have hrc : (match r with
        | none => (0 : Int)
        | some x => if x < 0 ∨ x > 255 then 0 else x) = 0 := by
      rcases hr with rfl | ⟨w, rfl, hw⟩
      · rfl
      · simp only [gt_iff_lt]
        rw [if_pos (by omega)]
    simp only [createPopularimeterFrame, Option.getD_some, if_neg he, hrc,
      if_neg (by omega : ¬ z < 0)]
    rw [if_pos ⟨hz32, hlen⟩]
    rfl
  · intro e z c he hlen hc hz0 hz255
    have hcc : (match c with
        | none => (0 : Int)
        | some x => if x < 0 then 0 else x) = 0 := by
      rcases hc with rfl | ⟨w, rfl, hw⟩
      · rfl
      · simp [hw]
    simp only [createPopularimeterFrame, Option.getD_some, if_neg he, hcc,
      if_neg (by omega : ¬ (z < 0 ∨ z > 255))]
    rw [if_pos ⟨by omega, by omega⟩]
    rfl

/-- Witness for C6: absent email, rating 300 and a negative counter. -/
theorem createPopularimeterFrame_clamping_witness :
    createPopularimeterFrame (some ⟨none, some 5, some 5⟩) = .null ∧
      createPopularimeterFrame (some ⟨some [101], some 300, some (-7)⟩) =
        .frame (popmHeaderBytes [101] ++ ([101] ++ [0]) ++ [0] ++
          [0, 0, 0, 0]) :=
  ⟨createPopularimeterFrame_clamping.1.2 (some 5) (some 5),
    createPopularimeterFrame_clamping.2.1 [101] (some 300) (some (-7))
      (by decide) (by norm_num) (Or.inr ⟨300, rfl, by norm_num⟩)
      (Or.inr ⟨-7, rfl, by norm_num⟩)⟩

/-- **C8, counterexample.**  The two-character language `"en"` is
emitted as exactly its 2 bytes, not padded to 3: in the encoded comment
frame the descriptor (starting with the UTF-16 byte-order mark `255,
254`) follows immediately after the 2 language bytes. -/
theorem createLanguage_short_not_padded_counterexample :
    (createLanguage (asciiBytes "en")).length = 2 ∧
    createCommentFrame (some ⟨asciiBytes "en", [], [120]⟩) =
      some ((writeBytes (writeBytes (List.replicate 10 0) (asciiBytes "COMM") 0)
          (uint32BE 11) 4) ++ [1] ++ asciiBytes "en" ++ [255, 254, 0, 0] ++
        [255, 254, 120, 0]) := by
  refine ⟨by decide, by decide⟩

/-- **C8, amended.**  The language field written by
`createCommentFrame`/`createUnsynchronisedLyricsFrame` is `createLanguage`
of the supplied language, placed right after the encoding byte: `"eng"`
(3 bytes) when the language is absent, its first 3 bytes when longer
than 3, and the supplied bytes unchanged — 1 or 2 bytes, *not* padded —
when shorter. -/
theorem createLanguage_truncate_no_pad :
    (∀ language : List Nat, createLanguage language =
      if language = [] then asciiBytes "eng" else language.take 3) ∧
    (∀ language : List Nat, (createLanguage language).length =
      if language = [] then 3 else min language.length 3) ∧
    (∀ language shortText text : List Nat, text ≠ [] →
      ∃ header : List Nat, header.length = 10 ∧
        createCommentFrame (some ⟨language, shortText, text⟩) =
          some (header ++ [1] ++ createLanguage language ++
            createContentDescriptor shortText 1 true ++
            createText text 1 false)) ∧
    ∀ language shortText text : List Nat, text ≠ [] →
      ∃ header : List Nat, header.length = 10 ∧
        createUnsynchronisedLyricsFrame
            (some (.obj language shortText text)) =
          some (header ++ [1] ++ createLanguage language ++
            createContentDescriptor shortText 1 true ++
            createText text 1 false) := by
  have hlang : ∀ language : List Nat, createLanguage language =
      if language = [] then asciiBytes "eng" else language.take 3 := by
    intro language
    rw [createLanguage]
    by_cases h0 : language = []
    · rw [if_pos h0, if_pos h0]
    · rw [if_neg h0, if_neg h0]
      by_cases h3 : language.length > 3
      · rw [if_pos h3]
      · rw [if_neg h3, List.take_of_length_le (by omega)]
  refine ⟨hlang, ?_, ?_, ?_⟩
  · intro language
    rw [hlang]
    by_cases h0 : language = []
    · rw [if_pos h0, if_pos h0]
      rfl
    · rw [if_neg h0, if_neg h0, List.length_take]
      omega
  · intro language shortText text ht
    refine ⟨writeBytes (writeBytes (List.replicate 10 0) (asciiBytes "COMM") 0)
      (uint32BE ((createTextEncoding 1).length + (createLanguage language).length +
        (createContentDescriptor shortText 1 true).length +
        (createText text 1 false).length)) 4, ?_, ?_⟩
    · simp [writeBytes]
    · simp only [createCommentFrame, Option.getD_some, if_neg ht,
        createTextEncoding]
  · intro language shortText text ht
    refine ⟨writeBytes (writeBytes (List.replicate 10 0) (asciiBytes "USLT") 0)
      (uint32BE ((createTextEncoding 1).length + (createLanguage language).length +
        (createContentDescriptor shortText 1 true).length +
        (createText text 1 false).length)) 4, ?_, ?_⟩
    · simp [writeBytes]
    · simp only [createUnsynchronisedLyricsFrame, if_neg ht,
        createTextEncoding]

/-- Witness for the amended C8 at language `"en"`, empty short text and
text `"x"`. -/
theorem createLanguage_truncate_no_pad_witness :
    ∃ header : List Nat, header.length = 10 ∧
      createCommentFrame (some ⟨[101, 110], [], [120]⟩) =
        some (header ++ [1] ++ createLanguage [101, 110] ++
          createContentDescriptor [] 1 true ++ createText [120] 1 false) :=
  createLanguage_truncate_no_pad.2.2.1 [101, 110] [] [120] (by decide)

/-- **C3.**  Encoding a chapter whose `startOffsetBytes` is `0` writes
the `0xFFFFFFFF` sentinel — byte-for-byte the same frame as for an
absent offset — so decoding yields an *absent* `startOffsetBytes`, not
`0`: the truthiness check `if (chapter.startOffsetBytes)` drops the
value `0`.  Absent offsets do round-trip to absent, and a non-zero
offset (here `endOffsetBytes = 5`) round-trips to its value. -/
theorem chapter_offset_zero_encodes_as_sentinel :
    ((createChapterFrameHelper
        (some ⟨some [99], some 0, some 1, some 0, none⟩) []).map
      fun bytes => readChapterFrame (some (bytes.drop 10))) =
      some ⟨some [99], some 0, some 1, none, none, none⟩ ∧
    createChapterFrameHelper
        (some ⟨some [99], some 0, some 1, some 0, none⟩) [] =
      createChapterFrameHelper
        (some ⟨some [99], some 0, some 1, none, none⟩) [] ∧
    ((createChapterFrameHelper
        (some ⟨some [99], some 0, some 1, none, some 5⟩) []).map
      fun bytes => readChapterFrame (some (bytes.drop 10))) =
      some ⟨some [99], some 0, some 1, none, some 5, none⟩ := by
  refine ⟨by decide, by decide, by decide⟩

end NodeID3
